import Mathlib

/-!
Shallow embedding of `src/app.py` (a Streamlit workout/diet-planner app).

Real numbers of the Python program are modelled by `ℚ`; Python's
`round(x, 2)` is modelled by `round2` below (rounding to an integer
multiple of 1/100).  Strings are modelled by Lean `String` / `List Char`.
The Streamlit UI layer is modelled only as far as the claims need it:
the pure functions `calculate_bmi`, `bmi_category`, `generate_pdf`,
`generate_plan`, the `calories_map` lookup, the exercise-image rendering
loop and the `progress` table.
-/

namespace App

/-- Model of Python's `round(x, 2)`: round to 2 decimal places. -/
def round2 (q : ℚ) : ℚ := (round (q * 100) : ℤ) / 100

/-- `calculate_bmi` from `src/app.py` lines 18–20:
`h = height_cm / 100; return round(weight / (h * h), 2)`. -/
def calculate_bmi (weight height_cm : ℚ) : ℚ :=
  let h := height_cm / 100
  round2 (weight / (h * h))

/-- `bmi_category` from `src/app.py` lines 22–30. -/
def bmi_category (bmi : ℚ) : String :=
  if bmi < 18.5 then "Underweight"
  else if bmi < 25 then "Normal"
  else if bmi < 30 then "Overweight"
  else "Obese"

/-- The three fitness goals offered by the `selectbox` on line 124. -/
inductive Goal
  | weightLoss
  | muscleGain
  | maintainFitness
deriving DecidableEq

/-- The display string of each goal as it appears in the app. -/
def Goal.str : Goal → String
  | .weightLoss => "Weight Loss"
  | .muscleGain => "Muscle Gain"
  | .maintainFitness => "Maintain Fitness"

/-- Python `goal.lower()` applied to the goal display strings. -/
def Goal.lower : Goal → String
  | .weightLoss => "weight loss"
  | .muscleGain => "muscle gain"
  | .maintainFitness => "maintain fitness"

/-- `calories_map` dict from `src/app.py` lines 141–145, keyed by the goal. -/
def calories_map : Goal → ℕ
  | .weightLoss => 1800
  | .maintainFitness => 2200
  | .muscleGain => 2600

/-- The two diet preferences offered by the `selectbox` on line 125. -/
inductive DietType
  | vegetarian
  | nonVegetarian
deriving DecidableEq

def DietType.str : DietType → String
  | .vegetarian => "Vegetarian"
  | .nonVegetarian => "Non-Vegetarian"

/-- Python `diet_type.lower()`. -/
def DietType.lower : DietType → String
  | .vegetarian => "vegetarian"
  | .nonVegetarian => "non-vegetarian"

/-- The two genders offered by the `selectbox` on line 121. -/
inductive Gender
  | male
  | female
deriving DecidableEq

/-- Python `gender.lower()`. -/
def Gender.lower : Gender → String
  | .male => "male"
  | .female => "female"

/-- The three budget levels offered by the `selectbox` on line 126. -/
inductive Budget
  | low
  | medium
  | high
deriving DecidableEq

/-- Python `budget.lower()`. -/
def Budget.lower : Budget → String
  | .low => "low"
  | .medium => "medium"
  | .high => "high"

/-- The progress DataFrame from `src/app.py` lines 191–194:
labels "Week 1".."Week 4" paired with
`[weight, weight-0.5, weight-1, weight-1.5]`. -/
def progress (weight : ℚ) : List (String × ℚ) :=
  [("Week 1", weight), ("Week 2", weight - 0.5),
   ("Week 3", weight - 1), ("Week 4", weight - 1.5)]

/-! ### String utilities (models of the Python string operations used) -/

/-- `begins pat l` holds when `pat` occurs at the very start of `l`. -/
def begins : List Char → List Char → Bool
  | [], _ => true
  | _ :: _, [] => false
  | p :: ps, c :: cs => p == c && begins ps cs

/-- `containsSeg pat l` holds when `pat` occurs as a contiguous segment
of `l` (the model of Python's `pat in l`). -/
def containsSeg (pat : List Char) : List Char → Bool
  | [] => begins pat []
  | c :: cs => begins pat (c :: cs) || containsSeg pat cs

/-- Whitespace test used by the model of Python's `str.strip()`. -/
def isWS (c : Char) : Bool := c.isWhitespace

/-- Model of Python's `str.strip()` on a character list: drop whitespace
from both ends. -/
def pyStripL (l : List Char) : List Char :=
  ((l.dropWhile isWS).reverse.dropWhile isWS).reverse

/-! ### The plan generator (`generate_plan`, `src/app.py` lines 43–107) -/

/-- The `workout_focus` dict from `src/app.py` lines 47–51, keyed by goal. -/
def workout_focus : Goal → String
  | .weightLoss => "fat burning, high repetitions, and cardiovascular exercises"
  | .muscleGain => "progressive overload strength training with proper recovery"
  | .maintainFitness => "balanced strength, flexibility, and endurance training"

/-- The `diet_focus` dict from `src/app.py` lines 53–57, keyed by goal. -/
def diet_focus : Goal → String
  | .weightLoss => "controlled calories with high fiber and protein"
  | .muscleGain => "protein-rich meals with complex carbohydrates"
  | .maintainFitness => "balanced nutrition with adequate vitamins and minerals"

/-- `equipment_text` from `src/app.py` line 45:
`", ".join(equipment) if equipment else "bodyweight exercises only"`. -/
def equipment_text (equipment : List String) : String :=
  if equipment = [] then "bodyweight exercises only"
  else String.intercalate ", " equipment

/-- The `{planner_name if planner_name else "AI Fitness Planner"}`
interpolation on line 62 (Python truthiness: the empty string is falsy). -/
def namePart (planner_name : String) : String :=
  if planner_name = "" then "AI Fitness Planner" else planner_name

/-- Rendering of the interpolated BMI value.  `calculate_bmi` always
returns an integer multiple of 1/100; this renders such a rational the
way Python's f-string renders the corresponding two-decimal-rounded
float (integer part, then `.0`, one, or two fractional digits). -/
def fmtQ2 (q : ℚ) : String :=
  let k : ℤ := round (q * 100)
  let sign := if k < 0 then "-" else ""
  let a := k.natAbs
  let ip := a / 100
  let fr := a % 100
  if fr = 0 then sign ++ toString ip ++ ".0"
  else if fr % 10 = 0 then sign ++ toString ip ++ "." ++ toString (fr / 10)
  else sign ++ toString ip ++ "." ++ (if fr < 10 then "0" else "") ++ toString fr

/-- The fixed workout section of the plan template (lines 71–84 of the
f-string), including the surrounding blank lines. -/
def workoutSection : String :=
  "<b>WEEKLY WORKOUT PLAN</b>\nMonday – Full Body Strength:\nPush-ups 3×12, Squats 3×15, Plank 3×30 seconds.\nTuesday – Cardio & Core:\nJogging or brisk walking for 30 minutes, Mountain climbers 3×15, Leg raises 3×12.\nWednesday – Upper Body:\nDumbbell curls 3×12, Shoulder press 3×10, Triceps dips 3×12.\nThursday – Active Recovery:\nYoga and stretching for 30 minutes with breathing exercises.\nFriday – Lower Body:\nLunges 3×10 per leg, Squats 3×15, Calf raises 3×20.\nSaturday – Cardio + Abs:\nSkipping or cycling 25 minutes, Crunches 3×15, Plank 3×40 seconds.\nSunday – Rest or light walking.\n\n"

/-- The diet section of the plan template (lines 86–94 of the f-string):
the `diet_focus` phrase for the goal and the three diet-type-conditional
food substitutions.  The source lines end in two trailing spaces, which
are preserved here. -/
def dietSection (goal : Goal) (diet_type : DietType) : String :=
  "<b>DIET PLAN (INDIAN & BUDGET FRIENDLY)</b>\nDiet strategy: "
    ++ diet_focus goal
    ++ ".\n\n<i>Early Morning:</i> Warm water with lemon and 5 soaked almonds.  \n<i>Breakfast:</i> Vegetable oats or idli with sambar and "
    ++ (if diet_type = .vegetarian then "paneer or tofu" else "boiled eggs")
    ++ ".  \n<i>Mid-Morning:</i> One seasonal fruit such as apple or banana.  \n<i>Lunch:</i> Brown rice or chapatis, dal or "
    ++ (if diet_type = .vegetarian then "paneer curry" else "grilled chicken")
    ++ ", mixed vegetable sabzi, curd.  \n<i>Evening Snack:</i> Sprouts chaat or roasted peanuts.  \n<i>Dinner:</i> Chapatis with vegetable curry and "
    ++ (if diet_type = .vegetarian then "paneer bhurji" else "egg curry")
    ++ ".\n"

/-- The fixed hydration/lifestyle and final-advice sections (lines
96–104 of the f-string), up to the last character before the closing
`"""`. -/
def closingSection : String :=
  "\n<b>HYDRATION & LIFESTYLE</b>\nDrink at least 2.5–3 liters of water daily.\nSleep 7–8 hours for recovery.\nAvoid junk food and sugary drinks.\nMaintain consistency and track progress weekly.\n\n<b>FINAL ADVICE</b>\nThis plan is student-friendly, affordable, and safe. \nFollow it consistently for 8–12 weeks to improve fitness, stamina, and overall health."

/-- The part of the plan f-string before the `{equipment_text}`
interpolation (lines 60–68 of the f-string, without the leading
newline). -/
def planPartA (planner_name : String) (age : ℕ) (gender : Gender)
    (bmi : ℚ) (category : String) (goal : Goal) : String :=
  "<b>PERSONALIZED WORKOUT AND DIET PLAN</b>\n\n<b>Name:</b> "
    ++ namePart planner_name
    ++ "\n\n<b>PROFILE OVERVIEW</b>\n\nThis fitness plan is designed for a "
    ++ toString age
    ++ "-year-old "
    ++ gender.lower
    ++ " student with a BMI of "
    ++ fmtQ2 bmi
    ++ " ("
    ++ category
    ++ "). \nThe primary fitness goal is "
    ++ goal.lower
    ++ ", focusing on "
    ++ workout_focus goal
    ++ ". \nThe program is suitable for individuals using "

/-- The part of the plan f-string after the `{equipment_text}`
interpolation (lines 68 onwards, without the trailing newline). -/
def planPartB (goal : Goal) (diet_type : DietType) (budget : Budget)
    (calories : ℕ) : String :=
  " and following a "
    ++ diet_type.lower
    ++ " diet within a "
    ++ budget.lower
    ++ " budget.\nThe recommended daily calorie intake is around "
    ++ toString calories
    ++ " kcal for sustainable results.\n\n"
    ++ workoutSection
    ++ dietSection goal diet_type
    ++ closingSection

/-- The body of the `plan` f-string between its leading and trailing
newline. -/
def planCore (planner_name : String) (age : ℕ) (gender : Gender)
    (bmi : ℚ) (category : String) (goal : Goal) (diet_type : DietType)
    (budget : Budget) (equipment : List String) (calories : ℕ) : String :=
  planPartA planner_name age gender bmi category goal
    ++ equipment_text equipment
    ++ planPartB goal diet_type budget calories

/-- `generate_plan` from `src/app.py` lines 43–107: the f-string (which
starts and ends with a newline around `planCore`) with Python's
`.strip()` applied. -/
def generate_plan (planner_name : String) (age : ℕ) (gender : Gender)
    (bmi : ℚ) (category : String) (goal : Goal) (diet_type : DietType)
    (budget : Budget) (equipment : List String) (calories : ℕ) : String :=
  ⟨pyStripL ('\n' :: (planCore planner_name age gender bmi category goal
      diet_type budget equipment calories).data ++ ['\n'])⟩

/-! ### Document export (`generate_pdf`, `src/app.py` lines 33–40) -/

/-- Model of Python's `text.split("\n\n")`: split on each
non-overlapping occurrence of the two-newline delimiter, left to right;
the empty string yields one empty segment. -/
def pySplitNN : List Char → List (List Char)
  | [] => [[]]
  | '\n' :: '\n' :: rest => [] :: pySplitNN rest
  | c :: rest =>
    match pySplitNN rest with
    | [] => [[c]]
    | s :: ss => (c :: s) :: ss

/-- Inverse of `pySplitNN`: re-join segments with the `"\n\n"`
delimiter. -/
def joinNN : List (List Char) → List Char
  | [] => []
  | [s] => s
  | s :: ss => s ++ '\n' :: '\n' :: joinNN ss

/-- One flowable built on line 37 of `src/app.py`:
`Paragraph(p, styles["Normal"])`. -/
structure Paragraph where
  text : List Char
  style : String
deriving DecidableEq

/-- `generate_pdf` from `src/app.py` lines 33–40, modelled as the list
of document flowables it builds: one `Paragraph` per segment of
`text.split("\n\n")`.  The `reportlab` buffer machinery is outside the
repository; the document content is what it is built from. -/
def generate_pdf (text : String) : List Paragraph :=
  (pySplitNN text.data).map fun p => ⟨p, "Normal"⟩

/-! ### Exercise-demonstration rendering (`src/app.py` lines 172–186) -/

/-- One rendered cell of the exercise-demonstration row.  A
`placeholder` entry is what the spec describes for a missing file; the
`image` entry is what `col.image(...)` renders. -/
inductive RenderEntry
  | image (path : String) (caption : String)
  | placeholder (text : String)
deriving DecidableEq

/-- The `exercise_images` table from `src/app.py` lines 176–181
(exercise name paired with its image file name under `Images/`). -/
def exercise_images : List (String × String) :=
  [("Push-ups", "pushup.jpg"), ("Squats", "Squats.jpg"),
   ("Plank", "Plank.jpg"), ("Dumbbell Curls", "DumbbellCurls.jpg")]

/-- The rendering loop from `src/app.py` lines 183–186:
`if img.exists(): col.image(str(img), caption=name, ...)`.  The
filesystem is abstracted by the `fileExists` oracle. -/
def renderExercises (fileExists : String → Bool) : List RenderEntry :=
  exercise_images.filterMap fun p =>
    if fileExists p.2 then some (.image p.2 p.1) else none

/-! ### Form state (`src/app.py` lines 114–130, 141–146) -/

/-- The sidebar form state collected on lines 114–130. -/
structure FormState where
  planner_name : String
  age : ℕ
  gender : Gender
  height : ℚ
  weight : ℚ
  goal : Goal
  diet_type : DietType
  budget : Budget
  equipment : List String

/-- `daily_calories = calories_map[goal]` from `src/app.py` line 146. -/
def daily_calories (s : FormState) : ℕ := calories_map s.goal

/-! ## Helper lemmas -/

theorem round2_mono {q r : ℚ} (h : q ≤ r) : round2 q ≤ round2 r := by
  unfold round2
  have h1 : round (q * 100) ≤ round (r * 100) := by
    rw [round_eq, round_eq]
    exact Int.floor_mono (by linarith)
  have h2 : ((round (q * 100) : ℤ) : ℚ) ≤ ((round (r * 100) : ℤ) : ℚ) := by
    exact_mod_cast h1
  linarith

theorem exists_cons_of_headq {α : Type} {l : List α} {a : α}
    (h : l.head? = some a) : ∃ t, l = a :: t := by
  cases l with
  | nil => simp at h
  | cons x xs =>
    simp only [List.head?_cons, Option.some.injEq] at h
    exact ⟨xs, by rw [h]⟩

theorem exists_concat_of_getLastq {α : Type} {l : List α} {a : α}
    (h : l.getLast? = some a) : ∃ s, l = s ++ [a] := by
  have hr : l.reverse.head? = some a := by
    rw [List.head?_reverse]; exact h
  obtain ⟨t, ht⟩ := exists_cons_of_headq hr
  refine ⟨t.reverse, ?_⟩
  have := congrArg List.reverse ht
  simpa using this

/-- Stripping the f-string's leading and trailing newline leaves the body
untouched when the body neither starts nor ends in whitespace. -/
theorem pyStripL_wrap {l : List Char} {c d : Char} {t s : List Char}
    (hhead : l = c :: t) (hc : isWS c = false)
    (hlast : l = s ++ [d]) (hd : isWS d = false) :
    pyStripL ('\n' :: l ++ ['\n']) = l := by
  have hnl : isWS '\n' = true := rfl
  unfold pyStripL
  have h1 : List.dropWhile isWS ('\n' :: l ++ ['\n']) = l ++ ['\n'] := by
    rw [List.cons_append, List.dropWhile_cons, if_pos hnl]
    rw [hhead, List.cons_append, List.dropWhile_cons]
    simp [hc]
  rw [h1]
  have h2 : (l ++ ['\n']).reverse = '\n' :: l.reverse := by simp
  rw [h2, List.dropWhile_cons, if_pos hnl]
  have h3 : List.dropWhile isWS l.reverse = l.reverse := by
    rw [hlast]
    simp [List.reverse_append, List.dropWhile_cons, hd]
  rw [h3, List.reverse_reverse]

theorem headq_append {α : Type} {l₁ : List α} {a : α}
    (h : l₁.head? = some a) (l₂ : List α) : (l₁ ++ l₂).head? = some a := by
  cases l₁ with
  | nil => simp at h
  | cons x xs => simpa using h

theorem lastq_append {α : Type} (l₁ : List α) {l₂ : List α} {a : α}
    (h : l₂.getLast? = some a) : (l₁ ++ l₂).getLast? = some a := by
  have hne : l₂ ≠ [] := by
    intro hn; rw [hn] at h; simp at h
  rw [List.getLast?_append_of_ne_nil _ hne]
  exact h

theorem planCore_headq (pn : String) (age : ℕ) (g : Gender) (bmi : ℚ)
    (cat : String) (goal : Goal) (d : DietType) (bud : Budget)
    (eqp : List String) (cal : ℕ) :
    (planCore pn age g bmi cat goal d bud eqp cal).data.head? = some '<' := by
  unfold planCore planPartA
  simp only [String.data_append]
  repeat apply headq_append
  rfl

theorem closing_lastq : (closingSection.data).getLast? = some '.' := rfl

theorem planCore_lastq (pn : String) (age : ℕ) (g : Gender) (bmi : ℚ)
    (cat : String) (goal : Goal) (d : DietType) (bud : Budget)
    (eqp : List String) (cal : ℕ) :
    (planCore pn age g bmi cat goal d bud eqp cal).data.getLast? = some '.' := by
  unfold planCore planPartB
  simp only [String.data_append]
  repeat apply lastq_append
  exact closing_lastq

/-- The `.strip()` in `generate_plan` only removes the f-string's leading
and trailing newline: the plan equals the body of the template. -/
theorem generate_plan_eq (pn : String) (age : ℕ) (g : Gender) (bmi : ℚ)
    (cat : String) (goal : Goal) (d : DietType) (bud : Budget)
    (eqp : List String) (cal : ℕ) :
    generate_plan pn age g bmi cat goal d bud eqp cal
      = planCore pn age g bmi cat goal d bud eqp cal := by
  obtain ⟨t, ht⟩ :=
    exists_cons_of_headq (planCore_headq pn age g bmi cat goal d bud eqp cal)
  obtain ⟨s, hs⟩ :=
    exists_concat_of_getLastq (planCore_lastq pn age g bmi cat goal d bud eqp cal)
  unfold generate_plan
  rw [pyStripL_wrap ht rfl hs rfl]

theorem begins_self_append (p r : List Char) : begins p (p ++ r) = true := by
  induction p with
  | nil => rfl
  | cons x xs ih => simp [begins, ih]

theorem containsSeg_self_append (p b : List Char) :
    containsSeg p (p ++ b) = true := by
  cases hp : p ++ b with
  | nil =>
    have : p = [] := by
      cases p with
      | nil => rfl
      | cons x xs => simp at hp
    subst this
    simp at hp
    subst hp
    rfl
  | cons c cs =>
    rw [containsSeg, ← hp, begins_self_append]
    rfl

theorem containsSeg_append_right (a : List Char) {p b : List Char}
    (h : containsSeg p b = true) : containsSeg p (a ++ b) = true := by
  induction a with
  | nil => simpa using h
  | cons x xs ih =>
    rw [List.cons_append, containsSeg, ih, Bool.or_true]

theorem pySplitNN_ne_nil (l : List Char) : pySplitNN l ≠ [] := by
  induction l using pySplitNN.induct with
  | case1 => simp [pySplitNN]
  | case2 rest ih => simp [pySplitNN]
  | case3 x1 x2 h ihE ih1 => exact absurd ihE ih1
  | case4 x t h s ss hs ih1 =>
    rw [pySplitNN.eq_def]
    split
    · simp
    · simp
    · rename_i l' c rest hno heq
      injection heq with hx ht
      subst hx; subst ht
      rw [hs]
      simp

theorem joinNN_two (a b : List Char) (bs : List (List Char)) :
    joinNN (a :: b :: bs) = a ++ '\n' :: '\n' :: joinNN (b :: bs) := rfl

/-- Re-joining the segments of `pySplitNN` with the delimiter recovers
the original text: the split does not lose or alter a single character. -/
theorem joinNN_pySplitNN (l : List Char) : joinNN (pySplitNN l) = l := by
  induction l using pySplitNN.induct with
  | case1 => rfl
  | case2 rest ih =>
    rw [show pySplitNN ('\n' :: '\n' :: rest) = [] :: pySplitNN rest from by
      simp [pySplitNN]]
    cases hS : pySplitNN rest with
    | nil => exact absurd hS (pySplitNN_ne_nil rest)
    | cons a as =>
      rw [hS] at ih
      rw [joinNN_two, ih]
      rfl
  | case3 x1 x2 h ihE ih1 => exact absurd ihE (pySplitNN_ne_nil x2)
  | case4 x t h s ss hs ih1 =>
    have hstep : pySplitNN (x :: t) = (x :: s) :: ss := by
      rw [pySplitNN.eq_def]
      split
      · rename_i heq
        exact absurd heq (by simp)
      · rename_i rest heq
        injection heq with hx ht
        exact (h rest hx ht).elim
      · rename_i l' c rest hno heq
        injection heq with hx ht
        subst hx; subst ht
        rw [hs]
    rw [hstep]
    rw [hs] at ih1
    cases ss with
    | nil =>
      have hj : joinNN [s] = s := rfl
      rw [hj] at ih1
      subst ih1
      rfl
    | cons b bs =>
      rw [joinNN_two] at ih1
      rw [joinNN_two, ← ih1]
      simp

/-! ## Claims -/

/-- C1: for every weight `w > 0` (kg) and height `h > 0` (cm),
`calculate_bmi` returns the weight divided by the square of the height
in meters, rounded to 2 decimal places. -/
theorem c1_bmi_formula (w h : ℚ) (hw : 0 < w) (hh : 0 < h) :
    calculate_bmi w h = round2 (w / (h / 100) ^ 2) := by
  unfold calculate_bmi
  rw [pow_two]

theorem c1_bmi_formula_witness :
    (0 : ℚ) < 65 ∧ (0 : ℚ) < 170
    ∧ calculate_bmi 65 170 = round2 (65 / ((170 : ℚ) / 100) ^ 2) :=
  ⟨by norm_num, by norm_num, c1_bmi_formula 65 170 (by norm_num) (by norm_num)⟩

/-- C2: `bmi_category` classifies by the half-open intervals
`(-∞,18.5)`, `[18.5,25)`, `[25,30)`, `[30,∞)`, each value falling in
exactly one class; the six boundary examples evaluate as the spec says. -/
theorem c2_category (b : ℚ) :
    ((bmi_category b = "Underweight") ↔ b < 18.5)
    ∧ ((bmi_category b = "Normal") ↔ (18.5 ≤ b ∧ b < 25))
    ∧ ((bmi_category b = "Overweight") ↔ (25 ≤ b ∧ b < 30))
    ∧ ((bmi_category b = "Obese") ↔ 30 ≤ b)
    ∧ bmi_category 18.49 = "Underweight"
    ∧ bmi_category 18.5 = "Normal"
    ∧ bmi_category 24.99 = "Normal"
    ∧ bmi_category 25.0 = "Overweight"
    ∧ bmi_category 29.99 = "Overweight"
    ∧ bmi_category 30.0 = "Obese" := by
  refine ⟨?_, ?_, ?_, ?_, by norm_num [bmi_category], by norm_num [bmi_category],
    by norm_num [bmi_category], by norm_num [bmi_category], by norm_num [bmi_category],
    by norm_num [bmi_category]⟩ <;>
  unfold bmi_category <;> split_ifs with h1 h2 h3
  · exact iff_of_true rfl h1
  · exact iff_of_false (by decide) h1
  · exact iff_of_false (by decide) h1
  · exact iff_of_false (by decide) h1
  · exact iff_of_false (by decide) (fun hc => absurd h1 (not_lt.mpr hc.1))
  · exact iff_of_true rfl ⟨le_of_not_lt h1, h2⟩
  · exact iff_of_false (by decide) (fun hc => h2 hc.2)
  · exact iff_of_false (by decide) (fun hc => h2 hc.2)
  · exact iff_of_false (by decide) (by intro hc; linarith [hc.1])
  · exact iff_of_false (by decide) (by intro hc; linarith [hc.1])
  · exact iff_of_true rfl ⟨le_of_not_lt h2, h3⟩
  · exact iff_of_false (by decide) (fun hc => h3 hc.2)
  · exact iff_of_false (by decide) (by intro hc; linarith)
  · exact iff_of_false (by decide) (by intro hc; linarith)
  · exact iff_of_false (by decide) (by intro hc; linarith)
  · exact iff_of_true rfl (le_of_not_lt h3)

/-- C3: the template plan generator is deterministic: two calls on
equal input tuples produce identical plan text. -/
theorem c3_deterministic (pn pn' : String) (age age' : ℕ) (g g' : Gender)
    (bmi bmi' : ℚ) (cat cat' : String) (goal goal' : Goal) (d d' : DietType)
    (bud bud' : Budget) (eqp eqp' : List String) (cal cal' : ℕ)
    (h1 : pn = pn') (h2 : age = age') (h3 : g = g') (h4 : bmi = bmi')
    (h5 : cat = cat') (h6 : goal = goal') (h7 : d = d') (h8 : bud = bud')
    (h9 : eqp = eqp') (h10 : cal = cal') :
    generate_plan pn age g bmi cat goal d bud eqp cal
      = generate_plan pn' age' g' bmi' cat' goal' d' bud' eqp' cal' := by
  subst h1 h2 h3 h4 h5 h6 h7 h8 h9 h10
  rfl

theorem c3_deterministic_witness :
    generate_plan "Asha" 21 .male 22.49 "Normal" .weightLoss .vegetarian
      .low ["Dumbbells"] 1800
    = generate_plan "Asha" 21 .male 22.49 "Normal" .weightLoss .vegetarian
      .low ["Dumbbells"] 1800 :=
  c3_deterministic _ _ _ _ _ _ _ _ _ _ _ _ _ _ _ _ _ _ _ _
    rfl rfl rfl rfl rfl rfl rfl rfl rfl rfl

set_option maxRecDepth 8000 in
/-- C4: for every goal, the diet section of a Vegetarian plan contains
none of the strings "boiled eggs", "grilled chicken", "egg curry",
while the diet section of a Non-Vegetarian plan contains all three; and
for every profile the diet section occurs verbatim inside the generated
plan text. -/
theorem c4_diet_substitution (goal : Goal) (pn : String) (age : ℕ)
    (g : Gender) (bmi : ℚ) (cat : String) (bud : Budget)
    (eqp : List String) (cal : ℕ) :
    (containsSeg ("boiled eggs").data (dietSection goal .vegetarian).data = false
      ∧ containsSeg ("grilled chicken").data (dietSection goal .vegetarian).data = false
      ∧ containsSeg ("egg curry").data (dietSection goal .vegetarian).data = false)
    ∧ (containsSeg ("boiled eggs").data (dietSection goal .nonVegetarian).data = true
      ∧ containsSeg ("grilled chicken").data (dietSection goal .nonVegetarian).data = true
      ∧ containsSeg ("egg curry").data (dietSection goal .nonVegetarian).data = true)
    ∧ (∀ d : DietType, containsSeg (dietSection goal d).data
        (generate_plan pn age g bmi cat goal d bud eqp cal).data = true) := by
  refine ⟨?_, ?_, ?_⟩
  · cases goal <;> exact ⟨by decide, by decide, by decide⟩
  · cases goal <;> exact ⟨by decide, by decide, by decide⟩
  · intro d
    rw [generate_plan_eq]
    unfold planCore planPartB
    simp only [String.data_append, List.append_assoc]
    iterate 10 apply containsSeg_append_right
    exact containsSeg_self_append _ _

/-- C5: `progress` always outputs exactly the 4 week labels paired with
the weight decremented by 0.5 kg per successive week, and at weight 65
the series is 65, 64.5, 64.0, 63.5. -/
theorem c5_progress (w : ℚ) :
    progress w = [("Week 1", w), ("Week 2", w - 0.5),
      ("Week 3", w - 0.5 - 0.5), ("Week 4", w - 0.5 - 0.5 - 0.5)]
    ∧ (progress w).length = 4
    ∧ progress 65 = [("Week 1", 65), ("Week 2", 64.5),
        ("Week 3", 64.0), ("Week 4", 63.5)] := by
  refine ⟨?_, rfl, ?_⟩
  · simp only [progress, Prod.mk.injEq, List.cons.injEq, and_true, true_and]
    norm_num
    constructor <;> ring
  · simp only [progress, Prod.mk.injEq, List.cons.injEq, and_true, true_and]
    norm_num

/-- C6: the calorie lookup is the fixed total mapping
WeightLoss ↦ 1800, Maintain ↦ 2200, MuscleGain ↦ 2600 on the three goal
values, and the daily-calorie figure of the app depends on nothing in
the form state but the goal. -/
theorem c6_calories :
    (calories_map .weightLoss = 1800
      ∧ calories_map .maintainFitness = 2200
      ∧ calories_map .muscleGain = 2600)
    ∧ (∀ g : Goal, calories_map g = 1800 ∨ calories_map g = 2200
        ∨ calories_map g = 2600)
    ∧ (∀ s s' : FormState, s.goal = s'.goal →
        daily_calories s = daily_calories s') := by
  refine ⟨⟨rfl, rfl, rfl⟩, ?_, ?_⟩
  · intro g; cases g <;> simp [calories_map]
  · intro s s' h
    unfold daily_calories
    rw [h]

theorem c6_calories_witness :
    daily_calories ⟨"", 21, .male, 170, 65, .weightLoss, .vegetarian, .low, []⟩
      = daily_calories ⟨"Asha", 30, .female, 180, 80, .weightLoss,
          .nonVegetarian, .high, ["Gym Access"]⟩ :=
  c6_calories.2.2 _ _ rfl

/-- C7: the rounded BMI is monotonically increasing in the weight and
monotonically decreasing in the height. -/
theorem c7_bmi_monotone (w w' h h' : ℚ) (hw : 0 < w) (hw' : 0 < w')
    (hh : 0 < h) (hh' : 0 < h') :
    (w < w' → calculate_bmi w h ≤ calculate_bmi w' h)
    ∧ (h < h' → calculate_bmi w h' ≤ calculate_bmi w h) := by
  constructor
  · intro hlt
    unfold calculate_bmi
    apply round2_mono
    gcongr
  · intro hlt
    unfold calculate_bmi
    apply round2_mono
    gcongr

theorem c7_bmi_monotone_witness :
    calculate_bmi 60 170 ≤ calculate_bmi 70 170
    ∧ calculate_bmi 60 180 ≤ calculate_bmi 60 170 :=
  ⟨(c7_bmi_monotone 60 70 170 180 (by norm_num) (by norm_num) (by norm_num)
      (by norm_num)).1 (by norm_num),
   (c7_bmi_monotone 60 70 170 180 (by norm_num) (by norm_num) (by norm_num)
      (by norm_num)).2 (by norm_num)⟩

/-- C8: the document exporter builds exactly one paragraph per segment
of the plan text split on the fixed delimiter `"\n\n"`, mutating
nothing (re-joining the paragraphs recovers the input byte for byte),
and exporting the empty string yields a document with one empty
paragraph rather than failing. -/
theorem c8_export (text : String) :
    (generate_pdf text).map Paragraph.text = pySplitNN text.data
    ∧ (generate_pdf text).length = (pySplitNN text.data).length
    ∧ joinNN ((generate_pdf text).map Paragraph.text) = text.data
    ∧ 1 ≤ (generate_pdf text).length
    ∧ generate_pdf "" = [⟨[], "Normal"⟩] := by
  have hmap : (generate_pdf text).map Paragraph.text = pySplitNN text.data := by
    unfold generate_pdf
    rw [List.map_map]
    exact List.map_id'' (fun p => rfl) _
  refine ⟨hmap, ?_, ?_, ?_, rfl⟩
  · unfold generate_pdf
    rw [List.length_map]
  · rw [hmap]
    exact joinNN_pySplitNN text.data
  · unfold generate_pdf
    rw [List.length_map]
    exact List.length_pos.mpr (pySplitNN_ne_nil text.data)

/-- C9 counterexample: with every image file missing, the rendering
loop emits no entries at all — in particular no textual placeholder for
"Push-ups", whose file `pushup.jpg` is in the table and missing — so
the claim that a missing file yields a placeholder entry is false. -/
theorem c9_counterexample :
    ("Push-ups", "pushup.jpg") ∈ exercise_images
    ∧ (fun _ : String => false) "pushup.jpg" = false
    ∧ renderExercises (fun _ => false) = []
    ∧ ¬ ∃ s, RenderEntry.placeholder s ∈ renderExercises (fun _ => false) := by
  refine ⟨by simp [exercise_images], rfl, rfl, ?_⟩
  simp [renderExercises, exercise_images]

/-- C9 (amended): for every exercise in the fixed image table whose
image file is missing, the rendering loop simply skips the exercise —
it emits no placeholder (it never emits placeholders at all) and no
image entry for it — and rendering remains a total function, so the
request does not fail. -/
theorem c9_missing_skipped (f : String → Bool) (nm img : String)
    (hmem : (nm, img) ∈ exercise_images) (hmiss : f img = false) :
    (∀ s, RenderEntry.placeholder s ∉ renderExercises f)
    ∧ RenderEntry.image img nm ∉ renderExercises f := by
  constructor
  · intro s hin
    unfold renderExercises at hin
    rw [List.mem_filterMap] at hin
    obtain ⟨p, hp, hps⟩ := hin
    cases hf : f p.2 with
    | false => simp [hf] at hps
    | true => simp [hf] at hps
  · intro hin
    unfold renderExercises at hin
    rw [List.mem_filterMap] at hin
    obtain ⟨p, hp, hps⟩ := hin
    cases hf : f p.2 with
    | false => simp [hf] at hps
    | true =>
      simp only [hf, if_true, Option.some.injEq] at hps
      have hpath : p.2 = img := by
        injection hps with hpath hcap
      rw [hpath] at hf
      rw [hf] at hmiss
      exact Bool.noConfusion hmiss

theorem c9_missing_skipped_witness :
    RenderEntry.image "pushup.jpg" "Push-ups" ∉ renderExercises (fun _ => false) :=
  (c9_missing_skipped (fun _ => false) "Push-ups" "pushup.jpg"
    (by simp [exercise_images]) rfl).2

/-- C10: with an empty equipment selection the plan text contains
"bodyweight exercises only"; with a non-empty selection the
comma-joined equipment list is interpolated instead and occurs in the
plan text. -/
theorem c10_equipment (pn : String) (age : ℕ) (g : Gender) (bmi : ℚ)
    (cat : String) (goal : Goal) (d : DietType) (bud : Budget)
    (eqp : List String) (cal : ℕ) :
    (eqp = [] →
      equipment_text eqp = "bodyweight exercises only"
      ∧ containsSeg ("bodyweight exercises only").data
          (generate_plan pn age g bmi cat goal d bud eqp cal).data = true)
    ∧ (eqp ≠ [] →
      equipment_text eqp = String.intercalate ", " eqp
      ∧ containsSeg (String.intercalate ", " eqp).data
          (generate_plan pn age g bmi cat goal d bud eqp cal).data = true) := by
  constructor
  · intro he
    subst he
    refine ⟨rfl, ?_⟩
    rw [generate_plan_eq]
    unfold planCore
    rw [show equipment_text [] = "bodyweight exercises only" from rfl]
    simp only [String.data_append, List.append_assoc]
    apply containsSeg_append_right
    exact containsSeg_self_append _ _
  · intro hne
    have he : equipment_text eqp = String.intercalate ", " eqp := by
      unfold equipment_text
      rw [if_neg hne]
    refine ⟨he, ?_⟩
    rw [generate_plan_eq]
    unfold planCore
    rw [he]
    simp only [String.data_append, List.append_assoc]
    apply containsSeg_append_right
    exact containsSeg_self_append _ _

theorem c10_equipment_witness :
    containsSeg ("bodyweight exercises only").data
      (generate_plan "" 21 .male 22.49 "Normal" .weightLoss .vegetarian
        .low [] 1800).data = true
    ∧ containsSeg (String.intercalate ", " ["Dumbbells", "Gym Access"]).data
      (generate_plan "" 21 .male 22.49 "Normal" .weightLoss .vegetarian
        .low ["Dumbbells", "Gym Access"] 1800).data = true :=
  ⟨((c10_equipment "" 21 .male 22.49 "Normal" .weightLoss .vegetarian
      .low [] 1800).1 rfl).2,
   ((c10_equipment "" 21 .male 22.49 "Normal" .weightLoss .vegetarian
      .low ["Dumbbells", "Gym Access"] 1800).2 (by simp)).2⟩

end App
